import Mathlib

/-!
Shallow embedding of the Hybrid Retrieval Router of `src/scripts/hybrid_rag.py`
(class `FastHybridRAG`).

Modelling conventions:
* Machine floats (numpy float32 similarity scores, Python floats) are modelled
  as rationals `ℚ`; only order comparisons of scores matter to the router.
* A query-result row (a Python `dict(record)`) is an association list from
  column name to a primitive value; Python dict keys are unique, which the
  claims never depend on.
* The external services are parameters: the graph store is a `Store` (its
  `run` either returns rows or raises, modelled with `Except`); the Ollama
  LLM is an optional `String → Except String String` (`None` models
  `self.llm = None`); the sentence-transformer embedding of a fixed question
  against the fixed catalog is the vector `sims : List ℚ` of cosine
  similarities, one entry per template in catalog order.
* Python exceptions are `Except.error`; the router's own totality models
  "no exception propagates to the caller".
-/

namespace HybridRag

/-- A primitive value appearing in a query-result row
(string, number, boolean or Python `None`). -/
inductive Value where
  | str (s : String)
  | num (n : Int)
  | boolean (b : Bool)
  | null
deriving DecidableEq, Repr

/-- Python `str(v)` on a row value. -/
def Value.pyStr : Value → String
  | .str s => s
  | .num n => toString n
  | .boolean b => if b then "True" else "False"
  | .null => "None"

/-- Python `repr(v)` on a row value, as used when a list of dicts is
interpolated into an f-string. (String repr is modelled for strings without
quote or escape characters, the only ones the claims use.) -/
def Value.pyRepr : Value → String
  | .str s => "'" ++ s ++ "'"
  | .num n => toString n
  | .boolean b => if b then "True" else "False"
  | .null => "None"

/-- One result row: `dict(record)` from the Neo4j driver. -/
abbrev Row := List (String × Value)

/-- Python `"error" in result` (dict key membership). -/
def rowHasKey (r : Row) (k : String) : Bool :=
  r.any (fun p => p.fst == k)

/-- Python `result.get(k, default)` followed by `str(...)` interpolation:
the value stored at key `k`, or the default string. -/
def rowGetD (r : Row) (k : String) (d : String) : String :=
  match r.find? (fun p => p.fst == k) with
  | some p => p.snd.pyStr
  | none => d

/-- Python `repr` of one row (a dict). -/
def rowPyRepr (r : Row) : String :=
  "\x7b" ++ String.intercalate ", "
    (r.map (fun p => "'" ++ p.fst ++ "': " ++ p.snd.pyRepr)) ++ "\x7d"

/-- Python `repr` of a list of rows, as interpolated by
`f"No results found or error: {results}"`. -/
def resultsPyRepr (rs : List Row) : String :=
  "[" ++ String.intercalate ", " (rs.map rowPyRepr) ++ "]"

/-- One entry of `self.query_templates` together with its key:
`key ↦ {"cypher": ..., "description": ...}`.  The catalog is the insertion-
ordered list of these entries (`self.template_keys = list(...keys())`). -/
structure Template where
  key : String
  cypher : String
  description : String
deriving DecidableEq, Repr

/-- The graph-store capability behind `execute_cypher`:
`neo4j_available` is the flag set in `_setup_connections`; `run` is
`session.run` + row conversion, which either yields rows or raises with a
message. -/
structure Store where
  neo4j_available : Bool
  run : String → Except String (List Row)

/-- The fallback LLM capability: `self.llm.invoke`, which returns text or
raises with a message. -/
abbrev LLM := String → Except String String

/-- `FastHybridRAG.execute_cypher`: returns the rows, or a single error row
`[{"error": ...}]` when Neo4j is unavailable or the query raises.  Never
retries; never lets the exception escape. -/
def execute_cypher (store : Store) (cypher : String) : List Row :=
  if !store.neo4j_available then
    [[("error", Value.str "Neo4j not available")]]
  else
    match store.run cypher with
    | .ok rows => rows
    | .error e => [[("error", Value.str ("Query execution failed: " ++ e))]]

/-- `np.argmax` over the similarity vector, paired with the maximal value:
returns `(index, value)` of the maximum, taking the **first** index on ties
(numpy's documented behaviour, proved below as `bestOf_le` /
`bestOf_get` / `bestOf_first`); `none` on the empty vector (where
`np.argmax` raises). -/
def bestOf : List ℚ → Option (Nat × ℚ)
  | [] => none
  | v :: rest =>
    match bestOf rest with
    | none => some (0, v)
    | some (j, m) => if v < m then some (j + 1, m) else some (0, v)

/-- `FastHybridRAG.find_best_template`: encodes the question (abstracted into
`sims`), takes `argmax` of the similarities and returns
`(best_template_key, best_similarity, best_template)`.  The `threshold`
parameter is accepted but never read, exactly as in the source.  `none`
models the crash on an empty catalog / index mismatch. -/
def find_best_template (catalog : List Template) (sims : List ℚ)
    (threshold : ℚ) : Option (String × ℚ × Template) :=
  match bestOf sims with
  | none => none
  | some (j, m) =>
    match catalog.get? j with
    | none => none
    | some t => some (t.key, m, t)

/-- The display line built for one row: non-`None` values stringified. -/
def displayValues (r : Row) : List String :=
  (r.map Prod.snd).filterMap
    (fun v => match v with
      | Value.null => none
      | v => some v.pyStr)

/-- `" | ".join(values)` for one row. -/
def lineOf (r : Row) : String :=
  String.intercalate " | " (displayValues r)

/-- The loop body of `_format_results`: skip falsy (empty) rows and rows with
no non-`None` values, otherwise produce the joined line. -/
def formatLine? (r : Row) : Option String :=
  if r.isEmpty then none
  else if (displayValues r).isEmpty then none
  else some (lineOf r)

/-- `FastHybridRAG._format_results` (its `question` and `description`
arguments are unused by the source and are dropped). -/
def format_results (results : List Row) : String :=
  if results.isEmpty then "No results found."
  else if results.any (fun r => rowHasKey r "error") then
    "Error executing query: " ++ rowGetD (results.headD []) "error" "Unknown error"
  else
    let formatted_lines := (results.take 10).filterMap formatLine?
    if formatted_lines.isEmpty then
      "Results found but no displayable data."
    else
      "Found " ++ toString results.length ++ " result(s):\n" ++
        String.intercalate "\n" formatted_lines

/-- The dict returned by `FastHybridRAG.query`.  Python returns a plain dict
whose key set differs per branch; a field of value `none` models an absent
key, and `template_used : Option (Option String)` distinguishes an absent
`template_used` key (`none`) from an explicit `"template_used": None`
(`some none`, the LLM-fallback branch). -/
structure Response where
  question : String
  method : String
  answer : String
  template_used : Option (Option String)
  similarity : Option ℚ
  cypher : Option String
  results : Option (List Row)
  execution_time : Option String
  error : Option String
deriving DecidableEq, Repr

/-- The f-string prompt built in the LLM fallback branch of `query`. -/
def llm_prompt (question : String) : String :=
  "Write ONLY a Cypher query. No explanations or text.\n\nQuestion: " ++
    question ++
    "\n\nSchema: Project, Stakeholder, Role, Feature, Functional_Requirement, Domain_Knowledge, Qual_Scenario\nRelations: HAS_STAKEHOLDER, PLAYS_ROLE, HAS_DOMAIN_KNOWLEDGE, HAS_FUNCTIONAL_REQUIREMENT, RAISED_BY, SATISFIED_BY\n\nQuery:"

/-- Python's `f"{similarity:.3f}"`: the score scaled by 1000, rounded to the
nearest integer (ties to even, as float formatting rounds), printed with
three digits after the point.  No claim depends on this string's digits. -/
def fmt3 (q : ℚ) : String :=
  let scaled : ℚ := q * 1000
  let n : Int := ⌊scaled⌋
  let frac : ℚ := scaled - (n : ℚ)
  let r : Int :=
    if frac > mkRat 1 2 then n + 1
    else if frac < mkRat 1 2 then n
    else if n % 2 = 0 then n else n + 1
  let sign := if r < 0 then "-" else ""
  let a := r.natAbs
  let fpStr := toString (a % 1000)
  let fpPad := String.mk (List.replicate (3 - fpStr.length) '0') ++ fpStr
  sign ++ toString (a / 1000) ++ "." ++ fpPad

/-- The dict returned by the `similarity >= similarity_threshold` branch of
`query`: execute the matched template's Cypher and report
`method = "template"`. -/
def templateResponse (question : String) (template_key : String)
    (similarity : ℚ) (template : Template) (store : Store) : Response :=
  let cypher := template.cypher
  let results := execute_cypher store cypher
  let answer :=
    if !results.isEmpty && !(results.any (fun r => rowHasKey r "error")) then
      format_results results
    else
      "No results found or error: " ++ resultsPyRepr results
  { question := question
    method := "template"
    answer := answer
    template_used := some (some template_key)
    similarity := some similarity
    cypher := some cypher
    results := some results
    execution_time := some "< 1 second"
    error := none }

/-- The `else` branch of `query` (similarity below threshold): LLM fallback
when `self.llm` is set — its `invoke` either yields text (stripped and
executed, `method = "llm_fallback"`) or raises (`method = "error"`) — and
`method = "no_match"` when no LLM is configured. -/
def fallbackResponse (question : String) (template_key : String)
    (similarity : ℚ) (store : Store) (llm : Option LLM) : Response :=
  match llm with
  | some invoke =>
    match invoke (llm_prompt question) with
    | .ok text =>
      let cypher := text.trim
      let results := execute_cypher store cypher
      let answer := format_results results
      { question := question
        method := "llm_fallback"
        answer := answer
        template_used := some none
        similarity := some similarity
        cypher := some cypher
        results := some results
        execution_time := some "3-5 seconds"
        error := none }
    | .error e =>
      { question := question
        method := "error"
        answer := "Sorry, I couldn't process your question."
        template_used := none
        similarity := none
        cypher := none
        results := none
        execution_time := none
        error := some ("LLM fallback failed: " ++ e) }
  | none =>
    { question := question
      method := "no_match"
      answer := "No good template match (similarity: " ++ fmt3 similarity ++
        "). Try rephrasing your question or asking about: stakeholders, requirements, features, or domain knowledge."
      template_used := some (some template_key)
      similarity := some similarity
      cypher := none
      results := none
      execution_time := none
      error := none }

/-- `FastHybridRAG.query`: match the question against the templates
(`find_best_template` is called with its default threshold `0.5`, not with
`similarity_threshold`), then route on
`similarity >= similarity_threshold`.  `none` models the crash of
`find_best_template` on an empty index. -/
def query (catalog : List Template) (sims : List ℚ) (store : Store)
    (llm : Option LLM) (question : String) (similarity_threshold : ℚ) :
    Option Response :=
  match find_best_template catalog sims (mkRat 1 2) with
  | none => none
  | some (template_key, similarity, template) =>
    if similarity ≥ similarity_threshold then
      some (templateResponse question template_key similarity template store)
    else
      some (fallbackResponse question template_key similarity store llm)

/-! ### Concrete fixtures used by witnesses and counterexamples

A two-template slice of `_setup_query_templates`, a similarity vector a
sentence-transformer run could produce, and stub stores/LLMs standing for
the external services. -/

/-- First catalog entry of `_setup_query_templates`. -/
def demoTemplate0 : Template :=
  ⟨"list all stakeholders",
   "MATCH (s:Stakeholder) RETURN s.name, s.department, s.email ORDER BY s.name",
   "Get all stakeholders with their details"⟩

/-- A second catalog entry of `_setup_query_templates`. -/
def demoTemplate1 : Template :=
  ⟨"what are the goals",
   "MATCH (g:Goal) RETURN g.id, g.name, g.description ORDER BY g.name LIMIT 10",
   "Get project goals"⟩

/-- A two-entry catalog in insertion order. -/
def demoCatalog : List Template := [demoTemplate0, demoTemplate1]

/-- Cosine similarities of one question against `demoCatalog`. -/
def demoSims : List ℚ := [mkRat 4 5, mkRat 3 10]

/-- A reachable store whose queries all succeed with the given rows. -/
def storeOk (rows : List Row) : Store := ⟨true, fun _ => Except.ok rows⟩

/-- A reachable store that rejects every query with message `e`. -/
def storeFail (e : String) : Store := ⟨true, fun _ => Except.error e⟩

/-- An LLM that answers every prompt with `text`. -/
def llmOk (text : String) : LLM := fun _ => Except.ok text

/-- An LLM whose invocation raises with message `e`. -/
def llmFail (e : String) : LLM := fun _ => Except.error e

/-- Two plain stakeholder rows. -/
def demoRows : List Row :=
  [[("s.name", Value.str "Alice")], [("s.name", Value.str "Bob")]]

/-- One displayable row, replicated to build an 11-row result. -/
def elevenRow : Row := [("s.name", Value.str "Alice")]

/-- A genuine data row that also carries a column literally named
`"error"`. -/
def mixedErrorRow : Row :=
  [("error", Value.str "E404"), ("s.name", Value.str "Alice")]

end HybridRag

namespace HybridRag

/-! ### Properties of `bestOf` (the `np.argmax` model) -/

/-- `bestOf` yields a value only on the empty vector. -/
theorem bestOf_ne_none (l : List ℚ) (h : l ≠ []) : bestOf l ≠ none := by
  cases l with
  | nil => exact absurd rfl h
  | cons v rest =>
    simp only [bestOf]
    cases hb : bestOf rest with
    | none => simp
    | some jm =>
      obtain ⟨j, m⟩ := jm
      by_cases hvm : v < m <;> simp [hvm]

/-- The value `bestOf` returns sits at the index it returns. -/
theorem bestOf_get :
    ∀ (l : List ℚ) (j : Nat) (m : ℚ), bestOf l = some (j, m) →
      l.get? j = some m := by
  intro l
  induction l with
  | nil => intro j m h; simp [bestOf] at h
  | cons v rest ih =>
    intro j m h
    simp only [bestOf] at h
    split at h
    next hb =>
      simp only [Option.some.injEq, Prod.mk.injEq] at h
      obtain ⟨hj, hm⟩ := h
      subst hj; subst hm; rfl
    next j' m' hb =>
      split at h
      next hvm =>
        simp only [Option.some.injEq, Prod.mk.injEq] at h
        obtain ⟨hj, hm⟩ := h
        subst hj; subst hm
        simpa using ih j' m' hb
      next hvm =>
        simp only [Option.some.injEq, Prod.mk.injEq] at h
        obtain ⟨hj, hm⟩ := h
        subst hj; subst hm; rfl

/-- The value `bestOf` returns is an upper bound of the whole vector. -/
theorem bestOf_le :
    ∀ (l : List ℚ) (j : Nat) (m : ℚ), bestOf l = some (j, m) →
      ∀ x ∈ l, x ≤ m := by
  intro l
  induction l with
  | nil => intro j m h; simp [bestOf] at h
  | cons v rest ih =>
    intro j m h x hx
    simp only [bestOf] at h
    split at h
    next hb =>
      simp only [Option.some.injEq, Prod.mk.injEq] at h
      obtain ⟨_, hm⟩ := h
      have hrest : rest = [] := by
        by_contra hne
        exact bestOf_ne_none rest hne hb
      subst hrest
      subst hm
      rcases List.mem_cons.mp hx with hxv | hxr
      · exact le_of_eq hxv
      · simp at hxr
    next j' m' hb =>
      split at h
      next hvm =>
        simp only [Option.some.injEq, Prod.mk.injEq] at h
        obtain ⟨_, hm⟩ := h
        subst hm
        rcases List.mem_cons.mp hx with hxv | hxr
        · exact hxv ▸ le_of_lt hvm
        · exact ih j' m' hb x hxr
      next hvm =>
        simp only [Option.some.injEq, Prod.mk.injEq] at h
        obtain ⟨_, hm⟩ := h
        subst hm
        rcases List.mem_cons.mp hx with hxv | hxr
        · exact le_of_eq hxv
        · exact le_trans (ih j' m' hb x hxr) (not_lt.mp hvm)

/-- Every strictly earlier entry is strictly below the returned maximum:
`bestOf` returns the **first** index attaining the maximum, as `np.argmax`
does. -/
theorem bestOf_first :
    ∀ (l : List ℚ) (j : Nat) (m : ℚ), bestOf l = some (j, m) →
      ∀ i x, i < j → l.get? i = some x → x < m := by
  intro l
  induction l with
  | nil => intro j m h; simp [bestOf] at h
  | cons v rest ih =>
    intro j m h i x hij hget
    simp only [bestOf] at h
    split at h
    next hb =>
      simp only [Option.some.injEq, Prod.mk.injEq] at h
      obtain ⟨hj, _⟩ := h
      omega
    next j' m' hb =>
      split at h
      next hvm =>
        simp only [Option.some.injEq, Prod.mk.injEq] at h
        obtain ⟨hj, hm⟩ := h
        subst hm
        cases i with
        | zero =>
          have hxv : x = v := by
            simpa using hget.symm
          exact hxv ▸ hvm
        | succ i' =>
          have hi : i' < j' := by omega
          exact ih j' m' hb i' x hi (by simpa using hget)
      next hvm =>
        simp only [Option.some.injEq, Prod.mk.injEq] at h
        obtain ⟨hj, _⟩ := h
        omega

/-! ### Unfolding lemmas for `find_best_template` and `query` -/

/-- A successful `find_best_template` comes from an argmax index. -/
theorem find_best_template_elim (catalog : List Template) (sims : List ℚ)
    (t : ℚ) (key : String) (score : ℚ) (tmpl : Template)
    (h : find_best_template catalog sims t = some (key, score, tmpl)) :
    ∃ j, bestOf sims = some (j, score) ∧ catalog.get? j = some tmpl ∧
      key = tmpl.key := by
  unfold find_best_template at h
  split at h
  next => simp at h
  next j m hb =>
    split at h
    next => simp at h
    next tt hc =>
      simp only [Option.some.injEq, Prod.mk.injEq] at h
      obtain ⟨hk, hm, ht⟩ := h
      subst ht; subst hm
      exact ⟨j, hb, hc, hk.symm⟩

/-- `query` routes on `score ≥ similarity_threshold` once the match is
fixed. -/
theorem query_eq (catalog : List Template) (sims : List ℚ) (store : Store)
    (llm : Option LLM) (question : String) (t : ℚ)
    (key : String) (score : ℚ) (tmpl : Template)
    (hfind : find_best_template catalog sims (mkRat 1 2) =
      some (key, score, tmpl)) :
    query catalog sims store llm question t =
      if score ≥ t then
        some (templateResponse question key score tmpl store)
      else
        some (fallbackResponse question key score store llm) := by
  unfold query
  rw [hfind]

/-- The fallback branch reports one of the three non-template methods. -/
theorem fallbackResponse_method (question key : String) (score : ℚ)
    (store : Store) (llm : Option LLM) :
    (fallbackResponse question key score store llm).method = "llm_fallback" ∨
    (fallbackResponse question key score store llm).method = "error" ∨
    (fallbackResponse question key score store llm).method = "no_match" := by
  unfold fallbackResponse
  cases llm with
  | none => right; right; rfl
  | some invoke =>
    cases hg : invoke (llm_prompt question) with
    | ok text => left; simp [hg]
    | error e => right; left; simp [hg]

/-- The fallback branch never reports `method = "template"`. -/
theorem fallbackResponse_method_ne_template (question key : String)
    (score : ℚ) (store : Store) (llm : Option LLM) :
    (fallbackResponse question key score store llm).method ≠ "template" := by
  rcases fallbackResponse_method question key score store llm with h | h | h <;>
    rw [h] <;> decide

/-- The router reports `method = "template"` exactly when the best score
reaches the threshold. -/
theorem query_method_template_iff (catalog : List Template) (sims : List ℚ)
    (store : Store) (llm : Option LLM) (question : String) (t : ℚ)
    (key : String) (score : ℚ) (tmpl : Template)
    (hfind : find_best_template catalog sims (mkRat 1 2) =
      some (key, score, tmpl)) :
    ((query catalog sims store llm question t).map Response.method =
      some "template") ↔ score ≥ t := by
  have hq := query_eq catalog sims store llm question t key score tmpl hfind
  by_cases hth : score ≥ t
  · rw [if_pos hth] at hq
    rw [hq]
    simp only [Option.map_some']
    exact ⟨fun _ => hth, fun _ => rfl⟩
  · rw [if_neg hth] at hq
    rw [hq]
    simp only [Option.map_some', Option.some.injEq]
    constructor
    · intro h
      exact absurd h (fallbackResponse_method_ne_template question key score store llm)
    · intro h
      exact absurd h hth

/-- Unfolding of the fallback branch when the LLM call succeeds. -/
theorem fallbackResponse_of_ok (question key : String) (score : ℚ)
    (store : Store) (g : LLM) (text : String)
    (hok : g (llm_prompt question) = Except.ok text) :
    fallbackResponse question key score store (some g) =
      { question := question
        method := "llm_fallback"
        answer := format_results (execute_cypher store text.trim)
        template_used := some none
        similarity := some score
        cypher := some text.trim
        results := some (execute_cypher store text.trim)
        execution_time := some "3-5 seconds"
        error := none } := by
  unfold fallbackResponse
  simp [hok]

/-- Unfolding of the fallback branch when the LLM call raises. -/
theorem fallbackResponse_of_error (question key : String) (score : ℚ)
    (store : Store) (g : LLM) (e : String)
    (herr : g (llm_prompt question) = Except.error e) :
    fallbackResponse question key score store (some g) =
      { question := question
        method := "error"
        answer := "Sorry, I couldn't process your question."
        template_used := none
        similarity := none
        cypher := none
        results := none
        execution_time := none
        error := some ("LLM fallback failed: " ++ e) } := by
  unfold fallbackResponse
  simp [herr]

/-- The template path's answer when the executed rows contain an error
marker. -/
theorem templateResponse_answer_of_error_row (question key : String)
    (score : ℚ) (tmpl : Template) (store : Store)
    (hany : (execute_cypher store tmpl.cypher).any
      (fun r => rowHasKey r "error") = true) :
    (templateResponse question key score tmpl store).answer =
      "No results found or error: " ++
        resultsPyRepr (execute_cypher store tmpl.cypher) := by
  unfold templateResponse
  simp [hany]

/-- The template path's answer when the executed rows are empty. -/
theorem templateResponse_answer_of_empty (question key : String)
    (score : ℚ) (tmpl : Template) (store : Store)
    (hempty : execute_cypher store tmpl.cypher = []) :
    (templateResponse question key score tmpl store).answer =
      "No results found or error: []" := by
  unfold templateResponse
  simp [hempty]
  rfl

/-- The template path defers to `_format_results` on a non-empty, error-free
result. -/
theorem templateResponse_answer_of_clean (question key : String)
    (score : ℚ) (tmpl : Template) (store : Store)
    (hne : execute_cypher store tmpl.cypher ≠ [])
    (hnoerr : (execute_cypher store tmpl.cypher).any
      (fun r => rowHasKey r "error") = false) :
    (templateResponse question key score tmpl store).answer =
      format_results (execute_cypher store tmpl.cypher) := by
  unfold templateResponse
  have h1 : (execute_cypher store tmpl.cypher).isEmpty = false := by
    cases hex : execute_cypher store tmpl.cypher with
    | nil => exact absurd hex hne
    | cons a as => rfl
  simp [h1, hnoerr]

/-- A reachable store that rejects a query yields exactly one error row. -/
theorem execute_cypher_of_error (store : Store) (cypher e : String)
    (havail : store.neo4j_available = true)
    (hrun : store.run cypher = Except.error e) :
    execute_cypher store cypher =
      [[("error", Value.str ("Query execution failed: " ++ e))]] := by
  unfold execute_cypher
  simp [havail, hrun]

/-- `_format_results` surfaces the first row's error text whenever any row
has an `"error"` column. -/
theorem format_results_error (r0 : Row) (rest : List Row)
    (hany : (r0 :: rest).any (fun r => rowHasKey r "error") = true) :
    format_results (r0 :: rest) =
      "Error executing query: " ++ rowGetD r0 "error" "Unknown error" := by
  unfold format_results
  simp only [List.isEmpty_cons, hany, List.headD_cons, if_true, if_false,
    Bool.false_eq_true, ite_false, ite_true]

/-- `filterMap` is `map` when every element is kept. -/
theorem filterMap_eq_map_of_forall {α β : Type} (f : α → Option β)
    (g : α → β) :
    ∀ (l : List α), (∀ x ∈ l, f x = some (g x)) →
      l.filterMap f = l.map g := by
  intro l
  induction l with
  | nil => intro _; rfl
  | cons a as ih =>
    intro h
    have ha := h a (List.mem_cons_self a as)
    have hrest := ih (fun x hx => h x (List.mem_cons_of_mem a hx))
    simp [List.filterMap_cons, ha, hrest]

/-- `_format_results` on a non-empty, error-free result all of whose first
10 rows are displayable: total count prefix, one line per row, at most 10
lines. -/
theorem format_results_found (results : List Row) (hne : results ≠ [])
    (hnoerr : results.any (fun r => rowHasKey r "error") = false)
    (hdisp : ∀ r ∈ results.take 10, formatLine? r = some (lineOf r)) :
    format_results results =
      "Found " ++ toString results.length ++ " result(s):\n" ++
        String.intercalate "\n" ((results.take 10).map lineOf) := by
  have hmap := filterMap_eq_map_of_forall formatLine? lineOf _ hdisp
  have hempty : results.isEmpty = false := by
    cases results with
    | nil => exact absurd rfl hne
    | cons a as => rfl
  have hne2 : ((results.take 10).map lineOf).isEmpty = false := by
    cases hc : results.take 10 with
    | nil =>
      rw [List.take_eq_nil_iff] at hc
      rcases hc with hc | hc
      · exact absurd hc (by norm_num)
      · exact absurd hc hne
    | cons a as => simp [hc]
  unfold format_results
  rw [hempty, hmap]
  simp [hnoerr, hne2]
  intro h
  exact absurd h hne

end HybridRag

namespace HybridRag

/-! ### The claims -/

/-- C1: for every question, the router takes the template path — executes the
matched template's Cypher and reports `method = "template"` — exactly when
the best-match similarity score is at least the threshold parameter; when the
score is strictly below the threshold the fallback branch is taken instead
(whose method is never `"template"` and which only ever executes
LLM-generated text). -/
theorem C1_template_path_iff_threshold (catalog : List Template)
    (sims : List ℚ) (store : Store) (llm : Option LLM) (question : String)
    (t : ℚ) (key : String) (score : ℚ) (tmpl : Template)
    (hfind : find_best_template catalog sims (mkRat 1 2) =
      some (key, score, tmpl)) :
    ((query catalog sims store llm question t).map Response.method =
        some "template" ↔ score ≥ t) ∧
    (score ≥ t →
      query catalog sims store llm question t =
        some (templateResponse question key score tmpl store) ∧
      (templateResponse question key score tmpl store).cypher =
        some tmpl.cypher ∧
      (templateResponse question key score tmpl store).results =
        some (execute_cypher store tmpl.cypher)) ∧
    (¬ score ≥ t →
      query catalog sims store llm question t =
        some (fallbackResponse question key score store llm) ∧
      (fallbackResponse question key score store llm).method ≠ "template") := by
  have hq := query_eq catalog sims store llm question t key score tmpl hfind
  refine ⟨query_method_template_iff catalog sims store llm question t key
    score tmpl hfind, ?_, ?_⟩
  · intro hth
    rw [if_pos hth] at hq
    exact ⟨hq, rfl, rfl⟩
  · intro hth
    rw [if_neg hth] at hq
    exact ⟨hq, fallbackResponse_method_ne_template question key score store llm⟩

/-- Witness for C1: concrete catalog, similarities and store at the default
threshold. -/
theorem C1_witness :
    ((query demoCatalog demoSims (storeOk demoRows) none
        "who are the stakeholders" (mkRat 1 2)).map Response.method =
        some "template" ↔ mkRat 4 5 ≥ mkRat 1 2) ∧
    (mkRat 4 5 ≥ mkRat 1 2 →
      query demoCatalog demoSims (storeOk demoRows) none
          "who are the stakeholders" (mkRat 1 2) =
        some (templateResponse "who are the stakeholders"
          "list all stakeholders" (mkRat 4 5) demoTemplate0
          (storeOk demoRows)) ∧
      (templateResponse "who are the stakeholders" "list all stakeholders"
          (mkRat 4 5) demoTemplate0 (storeOk demoRows)).cypher =
        some demoTemplate0.cypher ∧
      (templateResponse "who are the stakeholders" "list all stakeholders"
          (mkRat 4 5) demoTemplate0 (storeOk demoRows)).results =
        some (execute_cypher (storeOk demoRows) demoTemplate0.cypher)) ∧
    (¬ mkRat 4 5 ≥ mkRat 1 2 →
      query demoCatalog demoSims (storeOk demoRows) none
          "who are the stakeholders" (mkRat 1 2) =
        some (fallbackResponse "who are the stakeholders"
          "list all stakeholders" (mkRat 4 5) (storeOk demoRows) none) ∧
      (fallbackResponse "who are the stakeholders" "list all stakeholders"
          (mkRat 4 5) (storeOk demoRows) none).method ≠ "template") :=
  C1_template_path_iff_threshold demoCatalog demoSims (storeOk demoRows)
    none "who are the stakeholders" (mkRat 1 2) "list all stakeholders"
    (mkRat 4 5) demoTemplate0 (by decide)

/-- C6: `find_best_template` returns the maximal similarity score together
with the key and template of the catalog entry at the earliest position
attaining that maximum (first inserted wins on ties). -/
theorem C6_best_template_is_first_argmax (catalog : List Template)
    (sims : List ℚ) (t : ℚ) (key : String) (score : ℚ) (tmpl : Template)
    (hfind : find_best_template catalog sims t = some (key, score, tmpl)) :
    (∀ s ∈ sims, s ≤ score) ∧
    ∃ j, sims.get? j = some score ∧ catalog.get? j = some tmpl ∧
      key = tmpl.key ∧
      ∀ i x, i < j → sims.get? i = some x → x < score := by
  obtain ⟨j, hb, hc, hk⟩ :=
    find_best_template_elim catalog sims t key score tmpl hfind
  exact ⟨bestOf_le sims j score hb, j, bestOf_get sims j score hb, hc, hk,
    fun i x hij hget => bestOf_first sims j score hb i x hij hget⟩

/-- Witness for C6 on the concrete catalog. -/
theorem C6_witness :
    (∀ s ∈ demoSims, s ≤ mkRat 4 5) ∧
    ∃ j, demoSims.get? j = some (mkRat 4 5) ∧
      demoCatalog.get? j = some demoTemplate0 ∧
      "list all stakeholders" = demoTemplate0.key ∧
      ∀ i x, i < j → demoSims.get? i = some x → x < mkRat 4 5 :=
  C6_best_template_is_first_argmax demoCatalog demoSims (mkRat 1 2)
    "list all stakeholders" (mkRat 4 5) demoTemplate0 (by decide)

/-- C7: the path decision is monotone in the threshold parameter: for
`t1 ≤ t2`, taking the fallback path at `t1` forces it at `t2`, and taking
the template path at `t2` forces it at `t1`. -/
theorem C7_threshold_monotonicity (catalog : List Template) (sims : List ℚ)
    (store : Store) (llm : Option LLM) (question : String) (t1 t2 : ℚ)
    (h12 : t1 ≤ t2) :
    ((query catalog sims store llm question t1).map Response.method ≠
        some "template" →
      (query catalog sims store llm question t2).map Response.method ≠
        some "template") ∧
    ((query catalog sims store llm question t2).map Response.method =
        some "template" →
      (query catalog sims store llm question t1).map Response.method =
        some "template") := by
  cases hfind : find_best_template catalog sims (mkRat 1 2) with
  | none =>
    have h1 : query catalog sims store llm question t1 = none := by
      unfold query; rw [hfind]
    have h2 : query catalog sims store llm question t2 = none := by
      unfold query; rw [hfind]
    rw [h1, h2]
    exact ⟨fun h => h, fun h => h⟩
  | some kst =>
    obtain ⟨key, score, tmpl⟩ := kst
    have i1 := query_method_template_iff catalog sims store llm question t1
      key score tmpl hfind
    have i2 := query_method_template_iff catalog sims store llm question t2
      key score tmpl hfind
    constructor
    · intro hnot hc
      exact hnot (i1.mpr (le_trans h12 (i2.mp hc)))
    · intro hc
      exact i1.mpr (le_trans h12 (i2.mp hc))

/-- Witness for C7 at thresholds 1/4 ≤ 3/4 on the concrete fixtures. -/
theorem C7_witness :
    ((query demoCatalog demoSims (storeOk demoRows) none
        "who are the stakeholders" (mkRat 1 4)).map Response.method ≠
        some "template" →
      (query demoCatalog demoSims (storeOk demoRows) none
        "who are the stakeholders" (mkRat 3 4)).map Response.method ≠
        some "template") ∧
    ((query demoCatalog demoSims (storeOk demoRows) none
        "who are the stakeholders" (mkRat 3 4)).map Response.method =
        some "template" →
      (query demoCatalog demoSims (storeOk demoRows) none
        "who are the stakeholders" (mkRat 1 4)).map Response.method =
        some "template") :=
  C7_threshold_monotonicity demoCatalog demoSims (storeOk demoRows) none
    "who are the stakeholders" (mkRat 1 4) (mkRat 3 4) (by decide)

/-- C10: the pair returned by `find_best_template` is independent of its
threshold parameter — the parameter is never read, so any two threshold
values give the same key, score and template. -/
theorem C10_threshold_noninterference (catalog : List Template)
    (sims : List ℚ) (t1 t2 : ℚ) :
    find_best_template catalog sims t1 = find_best_template catalog sims t2 :=
  rfl

/-- Counterexample to C2 as stated: when the graph store rejects the
template's query, the router's response reports `method = "template"`, not
`method = "error"`. -/
theorem C2_counterexample :
    (query demoCatalog demoSims (storeFail "Invalid input") none
        "who are the stakeholders" (mkRat 1 2)).map Response.method =
      some "template" ∧
    ("template" : String) ≠ "error" :=
  ⟨rfl, by decide⟩

/-- C2 amended: a store failure — the query rejected (`run` raises with
message `e`) or the store unreachable (`neo4j_available = false`) — is
recovered locally by `execute_cypher` into a single error row, with no
exception propagating and no retry (a single `run` call by construction);
the router then returns a structured response whose answer surfaces the
backend's message — the `"No results found or error: ..."` text on the
template path, the `"Error executing query: ..."` text on the LLM fallback
path — while `method` still reports the chosen path (`"template"` or
`"llm_fallback"`), never `"error"`; `method = "error"` arises only when the
LLM invocation itself raises. -/
theorem C2_execution_error_kept_local (catalog : List Template)
    (sims : List ℚ) (store : Store) (llm : Option LLM) (g : LLM)
    (c text question : String) (t : ℚ) (key : String) (score : ℚ)
    (tmpl : Template) (e m : String)
    (hfind : find_best_template catalog sims (mkRat 1 2) =
      some (key, score, tmpl)) :
    (store.neo4j_available = false →
      execute_cypher store c =
        [[("error", Value.str "Neo4j not available")]]) ∧
    (store.neo4j_available = true → store.run c = Except.error e →
      execute_cypher store c =
        [[("error", Value.str ("Query execution failed: " ++ e))]]) ∧
    (score ≥ t →
      execute_cypher store tmpl.cypher = [[("error", Value.str m)]] →
      (query catalog sims store llm question t).map Response.method =
        some "template" ∧
      (query catalog sims store llm question t).map Response.answer =
        some ("No results found or error: " ++
          resultsPyRepr [[("error", Value.str m)]])) ∧
    (¬ score ≥ t → llm = some g →
      g (llm_prompt question) = Except.ok text →
      execute_cypher store text.trim = [[("error", Value.str m)]] →
      (query catalog sims store llm question t).map Response.method =
        some "llm_fallback" ∧
      (query catalog sims store llm question t).map Response.answer =
        some ("Error executing query: " ++ m)) ∧
    ((query catalog sims store llm question t).map Response.method =
        some "error" →
      ¬ score ≥ t ∧ ∃ g' e', llm = some g' ∧
        g' (llm_prompt question) = Except.error e') := by
  refine ⟨?_, ?_, ?_, ?_, ?_⟩
  · intro hun
    unfold execute_cypher
    simp [hun]
  · intro hav hrun
    exact execute_cypher_of_error store c e hav hrun
  · intro hth hexec
    have hq := query_eq catalog sims store llm question t key score tmpl
      hfind
    rw [if_pos hth] at hq
    have hany : (execute_cypher store tmpl.cypher).any
        (fun r => rowHasKey r "error") = true := by
      rw [hexec]; rfl
    have hans := templateResponse_answer_of_error_row question key score
      tmpl store hany
    rw [hexec] at hans
    rw [hq]
    exact ⟨rfl, by rw [Option.map_some', hans]⟩
  · intro hth hllm hok hexec
    subst hllm
    have hq := query_eq catalog sims store (some g) question t key score
      tmpl hfind
    rw [if_neg hth] at hq
    rw [hq, fallbackResponse_of_ok question key score store g text hok]
    refine ⟨rfl, ?_⟩
    rw [Option.map_some']
    show some (format_results (execute_cypher store text.trim)) = _
    rw [hexec,
      format_results_error [("error", Value.str m)] [] (by rfl)]
    rfl
  · intro herrm
    have hq := query_eq catalog sims store llm question t key score tmpl
      hfind
    by_cases hth : score ≥ t
    · rw [if_pos hth] at hq
      rw [hq] at herrm
      simp only [Option.map_some', Option.some.injEq] at herrm
      have htm : (templateResponse question key score tmpl store).method =
        "template" := rfl
      rw [htm] at herrm
      exact absurd herrm (by decide)
    · rw [if_neg hth] at hq
      rw [hq] at herrm
      simp only [Option.map_some', Option.some.injEq] at herrm
      refine ⟨hth, ?_⟩
      cases llm with
      | none =>
        have hnm : (fallbackResponse question key score store none).method =
          "no_match" := rfl
        rw [hnm] at herrm
        exact absurd herrm (by decide)
      | some invoke =>
        cases hr2 : invoke (llm_prompt question) with
        | ok text' =>
          have hm : (fallbackResponse question key score store
              (some invoke)).method = "llm_fallback" := by
            rw [fallbackResponse_of_ok question key score store invoke
              text' hr2]
          rw [hm] at herrm
          exact absurd herrm (by decide)
        | error e' =>
          exact ⟨invoke, e', rfl, hr2⟩

/-- Witness for C2 amended: a reachable store that rejects the query, at the
default threshold, with an LLM configured. -/
theorem C2_amended_witness :
    ((storeFail "Invalid input").neo4j_available = false →
      execute_cypher (storeFail "Invalid input") demoTemplate0.cypher =
        [[("error", Value.str "Neo4j not available")]]) ∧
    ((storeFail "Invalid input").neo4j_available = true →
      (storeFail "Invalid input").run demoTemplate0.cypher =
        Except.error "Invalid input" →
      execute_cypher (storeFail "Invalid input") demoTemplate0.cypher =
        [[("error",
           Value.str ("Query execution failed: " ++ "Invalid input"))]]) ∧
    (mkRat 4 5 ≥ mkRat 1 2 →
      execute_cypher (storeFail "Invalid input") demoTemplate0.cypher =
        [[("error",
           Value.str ("Query execution failed: " ++ "Invalid input"))]] →
      (query demoCatalog demoSims (storeFail "Invalid input")
          (some (llmOk "MATCH (n) RETURN n")) "who are the stakeholders"
          (mkRat 1 2)).map Response.method = some "template" ∧
      (query demoCatalog demoSims (storeFail "Invalid input")
          (some (llmOk "MATCH (n) RETURN n")) "who are the stakeholders"
          (mkRat 1 2)).map Response.answer =
        some ("No results found or error: " ++
          resultsPyRepr
            [[("error",
               Value.str ("Query execution failed: " ++ "Invalid input"))]])) ∧
    (¬ mkRat 4 5 ≥ mkRat 1 2 →
      some (llmOk "MATCH (n) RETURN n") = some (llmOk "MATCH (n) RETURN n") →
      llmOk "MATCH (n) RETURN n" (llm_prompt "who are the stakeholders") =
        Except.ok "MATCH (n) RETURN n" →
      execute_cypher (storeFail "Invalid input")
          ("MATCH (n) RETURN n" : String).trim =
        [[("error",
           Value.str ("Query execution failed: " ++ "Invalid input"))]] →
      (query demoCatalog demoSims (storeFail "Invalid input")
          (some (llmOk "MATCH (n) RETURN n")) "who are the stakeholders"
          (mkRat 1 2)).map Response.method = some "llm_fallback" ∧
      (query demoCatalog demoSims (storeFail "Invalid input")
          (some (llmOk "MATCH (n) RETURN n")) "who are the stakeholders"
          (mkRat 1 2)).map Response.answer =
        some ("Error executing query: " ++
          ("Query execution failed: " ++ "Invalid input"))) ∧
    ((query demoCatalog demoSims (storeFail "Invalid input")
          (some (llmOk "MATCH (n) RETURN n")) "who are the stakeholders"
          (mkRat 1 2)).map Response.method = some "error" →
      ¬ mkRat 4 5 ≥ mkRat 1 2 ∧ ∃ g' e',
        some (llmOk "MATCH (n) RETURN n") = some g' ∧
        g' (llm_prompt "who are the stakeholders") = Except.error e') :=
  C2_execution_error_kept_local demoCatalog demoSims
    (storeFail "Invalid input") (some (llmOk "MATCH (n) RETURN n"))
    (llmOk "MATCH (n) RETURN n") demoTemplate0.cypher "MATCH (n) RETURN n"
    "who are the stakeholders" (mkRat 1 2) "list all stakeholders"
    (mkRat 4 5) demoTemplate0 "Invalid input"
    ("Query execution failed: " ++ "Invalid input") (by decide)

/-- Counterexample to C3 as stated: on the template path an empty result's
answer is not `"No results found."`. -/
theorem C3_counterexample :
    (query demoCatalog demoSims (storeOk []) none
        "who are the stakeholders" (mkRat 1 2)).map Response.results =
      some (some []) ∧
    (query demoCatalog demoSims (storeOk []) none
        "who are the stakeholders" (mkRat 1 2)).map Response.answer =
      some "No results found or error: []" ∧
    ("No results found or error: []" : String) ≠ "No results found." :=
  ⟨rfl, rfl, by decide⟩

/-- C3 amended: an empty row sequence yields `answer = "No results found."`
with `method` unaffected only on the LLM fallback path; on the template path
an empty result instead yields `answer = "No results found or error: []"`,
with `method` still `"template"`. -/
theorem C3_empty_result_answers (catalog : List Template) (sims : List ℚ)
    (store : Store) (g : LLM) (text question : String) (t : ℚ)
    (key : String) (score : ℚ) (tmpl : Template)
    (hfind : find_best_template catalog sims (mkRat 1 2) =
      some (key, score, tmpl)) :
    (score ≥ t → execute_cypher store tmpl.cypher = [] →
      (query catalog sims store (some g) question t).map Response.method =
        some "template" ∧
      (query catalog sims store (some g) question t).map Response.answer =
        some "No results found or error: []") ∧
    (¬ score ≥ t → g (llm_prompt question) = Except.ok text →
      execute_cypher store text.trim = [] →
      (query catalog sims store (some g) question t).map Response.method =
        some "llm_fallback" ∧
      (query catalog sims store (some g) question t).map Response.answer =
        some "No results found.") := by
  have hq := query_eq catalog sims store (some g) question t key score tmpl
    hfind
  constructor
  · intro hth hempty
    rw [if_pos hth] at hq
    rw [hq]
    refine ⟨rfl, ?_⟩
    rw [Option.map_some',
      templateResponse_answer_of_empty question key score tmpl store hempty]
  · intro hth hok hempty
    rw [if_neg hth] at hq
    rw [hq, fallbackResponse_of_ok question key score store g text hok]
    refine ⟨rfl, ?_⟩
    rw [Option.map_some']
    show some (format_results (execute_cypher store text.trim)) = _
    rw [hempty]
    rfl

/-- Witness for C3 amended on both paths' concrete data. -/
theorem C3_amended_witness :
    (mkRat 4 5 ≥ mkRat 1 2 →
      execute_cypher (storeOk []) demoTemplate0.cypher = [] →
      (query demoCatalog demoSims (storeOk [])
          (some (llmOk "MATCH (n) RETURN n")) "who are the stakeholders"
          (mkRat 1 2)).map Response.method = some "template" ∧
      (query demoCatalog demoSims (storeOk [])
          (some (llmOk "MATCH (n) RETURN n")) "who are the stakeholders"
          (mkRat 1 2)).map Response.answer =
        some "No results found or error: []") ∧
    (¬ mkRat 4 5 ≥ mkRat 1 2 →
      llmOk "MATCH (n) RETURN n" (llm_prompt "who are the stakeholders") =
        Except.ok "MATCH (n) RETURN n" →
      execute_cypher (storeOk []) ("MATCH (n) RETURN n" : String).trim = [] →
      (query demoCatalog demoSims (storeOk [])
          (some (llmOk "MATCH (n) RETURN n")) "who are the stakeholders"
          (mkRat 1 2)).map Response.method = some "llm_fallback" ∧
      (query demoCatalog demoSims (storeOk [])
          (some (llmOk "MATCH (n) RETURN n")) "who are the stakeholders"
          (mkRat 1 2)).map Response.answer = some "No results found.") :=
  C3_empty_result_answers demoCatalog demoSims (storeOk [])
    (llmOk "MATCH (n) RETURN n") "MATCH (n) RETURN n"
    "who are the stakeholders" (mkRat 1 2) "list all stakeholders"
    (mkRat 4 5) demoTemplate0 (by decide)

/-- Counterexample to C4 as stated: a fallback-generated-and-executed answer
reports `method = "llm_fallback"`, which is outside the claimed set
`{"template", "fallback_generated", "no_match", "error"}`. -/
theorem C4_counterexample :
    (query demoCatalog demoSims (storeOk demoRows)
        (some (llmOk "MATCH (n) RETURN n")) "who are the stakeholders"
        (mkRat 9 10)).map Response.method = some "llm_fallback" ∧
    ¬ (("llm_fallback" : String) = "template" ∨
       ("llm_fallback" : String) = "fallback_generated" ∨
       ("llm_fallback" : String) = "no_match" ∨
       ("llm_fallback" : String) = "error") :=
  ⟨rfl, by decide⟩

/-- C4 amended: every router response's method is one of `"template"`,
`"llm_fallback"`, `"no_match"`, `"error"`; a question answered by generating
a query via the LLM fallback and executing it reports
`method = "llm_fallback"` (the source's name for what the spec calls
`fallback_generated`). -/
theorem C4_method_values (catalog : List Template) (sims : List ℚ)
    (store : Store) (llm : Option LLM) (g : LLM) (text question : String)
    (t : ℚ) (resp : Response)
    (h : query catalog sims store llm question t = some resp) :
    (resp.method = "template" ∨ resp.method = "llm_fallback" ∨
     resp.method = "no_match" ∨ resp.method = "error") ∧
    (llm = some g → g (llm_prompt question) = Except.ok text →
      resp.method ≠ "template" →
      resp.method = "llm_fallback" ∧
      resp.results = some (execute_cypher store text.trim)) := by
  unfold query at h
  split at h
  next => exact Option.noConfusion h
  next key score tmpl hfind =>
    split at h
    next hth =>
      have hr := (Option.some.inj h).symm
      subst hr
      refine ⟨Or.inl rfl, ?_⟩
      intro _ _ hne
      exact absurd rfl hne
    next hth =>
      have hr := (Option.some.inj h).symm
      subst hr
      cases llm with
      | none =>
        refine ⟨Or.inr (Or.inr (Or.inl rfl)), ?_⟩
        intro hg
        exact Option.noConfusion hg
      | some invoke =>
        cases hr2 : invoke (llm_prompt question) with
        | ok text' =>
          rw [fallbackResponse_of_ok question key score store invoke text' hr2]
          refine ⟨Or.inr (Or.inl rfl), ?_⟩
          intro hg hok _
          have hinv : invoke = g := Option.some.inj hg
          subst hinv
          rw [hr2] at hok
          have htext : text' = text := Except.ok.inj hok
          subst htext
          exact ⟨rfl, rfl⟩
        | error e =>
          rw [fallbackResponse_of_error question key score store invoke e hr2]
          refine ⟨Or.inr (Or.inr (Or.inr rfl)), ?_⟩
          intro hg hok _
          have hinv : invoke = g := Option.some.inj hg
          subst hinv
          rw [hr2] at hok
          exact Except.noConfusion hok

/-- Witness for C4 amended: the LLM fallback run on concrete data. -/
theorem C4_witness :
    ((fallbackResponse "who are the stakeholders" "list all stakeholders"
        (mkRat 4 5) (storeOk demoRows)
        (some (llmOk "MATCH (n) RETURN n"))).method = "template" ∨
     (fallbackResponse "who are the stakeholders" "list all stakeholders"
        (mkRat 4 5) (storeOk demoRows)
        (some (llmOk "MATCH (n) RETURN n"))).method = "llm_fallback" ∨
     (fallbackResponse "who are the stakeholders" "list all stakeholders"
        (mkRat 4 5) (storeOk demoRows)
        (some (llmOk "MATCH (n) RETURN n"))).method = "no_match" ∨
     (fallbackResponse "who are the stakeholders" "list all stakeholders"
        (mkRat 4 5) (storeOk demoRows)
        (some (llmOk "MATCH (n) RETURN n"))).method = "error") ∧
    (some (llmOk "MATCH (n) RETURN n") = some (llmOk "MATCH (n) RETURN n") →
      llmOk "MATCH (n) RETURN n" (llm_prompt "who are the stakeholders") =
        Except.ok "MATCH (n) RETURN n" →
      (fallbackResponse "who are the stakeholders" "list all stakeholders"
        (mkRat 4 5) (storeOk demoRows)
        (some (llmOk "MATCH (n) RETURN n"))).method ≠ "template" →
      (fallbackResponse "who are the stakeholders" "list all stakeholders"
        (mkRat 4 5) (storeOk demoRows)
        (some (llmOk "MATCH (n) RETURN n"))).method = "llm_fallback" ∧
      (fallbackResponse "who are the stakeholders" "list all stakeholders"
        (mkRat 4 5) (storeOk demoRows)
        (some (llmOk "MATCH (n) RETURN n"))).results =
        some (execute_cypher (storeOk demoRows)
          ("MATCH (n) RETURN n" : String).trim)) :=
  C4_method_values demoCatalog demoSims (storeOk demoRows)
    (some (llmOk "MATCH (n) RETURN n")) (llmOk "MATCH (n) RETURN n")
    "MATCH (n) RETURN n" "who are the stakeholders" (mkRat 9 10)
    (fallbackResponse "who are the stakeholders" "list all stakeholders"
      (mkRat 4 5) (storeOk demoRows) (some (llmOk "MATCH (n) RETURN n")))
    rfl

/-- Counterexample to C5 as stated: when the LLM raises, the response has no
`results` key at all (`results = none`), not an empty row list. -/
theorem C5_counterexample :
    (query demoCatalog demoSims (storeOk demoRows)
        (some (llmFail "ollama down")) "who are the stakeholders"
        (mkRat 9 10)).map Response.method = some "error" ∧
    (query demoCatalog demoSims (storeOk demoRows)
        (some (llmFail "ollama down")) "who are the stakeholders"
        (mkRat 9 10)).map Response.results = some none ∧
    (some (none : Option (List Row)) : Option (Option (List Row))) ≠
      some (some ([] : List Row)) :=
  ⟨rfl, rfl, by decide⟩

/-- C5 amended: if the LLM invocation raises during the fallback path, the
router returns `method = "error"` with the failure message (and
`method = "no_match"` when no LLM is configured) — the raw exception never
propagates — but the response carries no `results` field at all
(`results = none`) rather than an empty row list. -/
theorem C5_fallback_isolation (catalog : List Template) (sims : List ℚ)
    (store : Store) (g : LLM) (question : String) (t : ℚ)
    (key : String) (score : ℚ) (tmpl : Template) (e : String)
    (hfind : find_best_template catalog sims (mkRat 1 2) =
      some (key, score, tmpl))
    (hlow : ¬ score ≥ t)
    (herr : g (llm_prompt question) = Except.error e) :
    (query catalog sims store (some g) question t).map Response.method =
      some "error" ∧
    (query catalog sims store (some g) question t).map Response.results =
      some none ∧
    (query catalog sims store (some g) question t).map Response.error =
      some (some ("LLM fallback failed: " ++ e)) ∧
    (query catalog sims store none question t).map Response.method =
      some "no_match" ∧
    (query catalog sims store none question t).map Response.results =
      some none := by
  have hq1 := query_eq catalog sims store (some g) question t key score tmpl
    hfind
  have hq2 := query_eq catalog sims store none question t key score tmpl
    hfind
  rw [if_neg hlow] at hq1 hq2
  rw [hq1, hq2, fallbackResponse_of_error question key score store g e herr]
  exact ⟨rfl, rfl, rfl, rfl, rfl⟩

/-- Witness for C5 amended: raising LLM at a high threshold. -/
theorem C5_amended_witness :
    (query demoCatalog demoSims (storeOk demoRows)
        (some (llmFail "ollama down")) "who are the stakeholders"
        (mkRat 9 10)).map Response.method = some "error" ∧
    (query demoCatalog demoSims (storeOk demoRows)
        (some (llmFail "ollama down")) "who are the stakeholders"
        (mkRat 9 10)).map Response.results = some none ∧
    (query demoCatalog demoSims (storeOk demoRows)
        (some (llmFail "ollama down")) "who are the stakeholders"
        (mkRat 9 10)).map Response.error =
      some (some ("LLM fallback failed: " ++ "ollama down")) ∧
    (query demoCatalog demoSims (storeOk demoRows) none
        "who are the stakeholders" (mkRat 9 10)).map Response.method =
      some "no_match" ∧
    (query demoCatalog demoSims (storeOk demoRows) none
        "who are the stakeholders" (mkRat 9 10)).map Response.results =
      some none :=
  C5_fallback_isolation demoCatalog demoSims (storeOk demoRows)
    (llmFail "ollama down") "who are the stakeholders" (mkRat 9 10)
    "list all stakeholders" (mkRat 4 5) demoTemplate0 "ollama down"
    (by decide) (by decide) rfl

/-- Counterexample to C8 as stated: a non-empty, error-free result whose
single row holds only a null value formats to
`"Results found but no displayable data."` — which does not begin with the
`"Found "` total-row-count prefix. -/
theorem C8_counterexample :
    ([[("a", Value.null)]] : List Row) ≠ [] ∧
    ([[("a", Value.null)]] : List Row).any (fun r => rowHasKey r "error") =
      false ∧
    format_results [[("a", Value.null)]] =
      "Results found but no displayable data." ∧
    ("Results found but no displayable data." : String).data.take 6 ≠
      ("Found " : String).data :=
  ⟨by decide, rfl, rfl, by decide⟩

/-- C8 amended: for a non-empty, error-free result each of whose first 10
rows is displayable (a non-empty dict with a non-null value), the template
path's answer is the **total** row count prefix followed by one
`" | "`-joined line per row for at most the first 10 rows, and the
response's `results` field holds every row untruncated; rows among the
first 10 with nothing displayable are skipped, and a result with no
displayable row at all formats without the count prefix. -/
theorem C8_display_cap_policy (catalog : List Template) (sims : List ℚ)
    (store : Store) (llm : Option LLM) (question : String) (t : ℚ)
    (key : String) (score : ℚ) (tmpl : Template)
    (hfind : find_best_template catalog sims (mkRat 1 2) =
      some (key, score, tmpl))
    (hth : score ≥ t)
    (hne : execute_cypher store tmpl.cypher ≠ [])
    (hnoerr : (execute_cypher store tmpl.cypher).any
      (fun r => rowHasKey r "error") = false)
    (hdisp : ∀ r ∈ (execute_cypher store tmpl.cypher).take 10,
      formatLine? r = some (lineOf r)) :
    (query catalog sims store llm question t).map Response.results =
      some (some (execute_cypher store tmpl.cypher)) ∧
    (query catalog sims store llm question t).map Response.answer =
      some ("Found " ++ toString (execute_cypher store tmpl.cypher).length ++
        " result(s):\n" ++
        String.intercalate "\n"
          (((execute_cypher store tmpl.cypher).take 10).map lineOf)) := by
  have hq := query_eq catalog sims store llm question t key score tmpl hfind
  rw [if_pos hth] at hq
  rw [hq]
  refine ⟨rfl, ?_⟩
  rw [Option.map_some',
    templateResponse_answer_of_clean question key score tmpl store hne hnoerr,
    format_results_found (execute_cypher store tmpl.cypher) hne hnoerr hdisp]

/-- Witness for C8: eleven rows, so the display is capped at 10 while the
results field keeps all eleven. -/
theorem C8_witness :
    (query demoCatalog demoSims (storeOk (List.replicate 11 elevenRow)) none
        "who are the stakeholders" (mkRat 1 2)).map Response.results =
      some (some (execute_cypher (storeOk (List.replicate 11 elevenRow))
        demoTemplate0.cypher)) ∧
    (query demoCatalog demoSims (storeOk (List.replicate 11 elevenRow)) none
        "who are the stakeholders" (mkRat 1 2)).map Response.answer =
      some ("Found " ++
        toString (execute_cypher (storeOk (List.replicate 11 elevenRow))
          demoTemplate0.cypher).length ++ " result(s):\n" ++
        String.intercalate "\n"
          (((execute_cypher (storeOk (List.replicate 11 elevenRow))
            demoTemplate0.cypher).take 10).map lineOf)) :=
  C8_display_cap_policy demoCatalog demoSims
    (storeOk (List.replicate 11 elevenRow)) none "who are the stakeholders"
    (mkRat 1 2) "list all stakeholders" (mkRat 4 5) demoTemplate0
    (by decide) (by decide) (by decide) (by decide) (by decide)

/-- C9: a successfully executed query any of whose rows has a column named
literally `"error"` is classified as a failure even though the rows are
genuine data: on the template path the answer becomes the
`"No results found or error"` text, and `_format_results` returns the
error-surfacing message instead of the formatted rows — detection is by
column-name membership. -/
theorem C9_error_by_column_name (catalog : List Template) (sims : List ℚ)
    (store : Store) (llm : Option LLM) (question : String) (t : ℚ)
    (key : String) (score : ℚ) (tmpl : Template) (r0 : Row)
    (rest : List Row)
    (hfind : find_best_template catalog sims (mkRat 1 2) =
      some (key, score, tmpl))
    (hth : score ≥ t)
    (hrows : execute_cypher store tmpl.cypher = r0 :: rest)
    (hany : (r0 :: rest).any (fun r => rowHasKey r "error") = true) :
    (query catalog sims store llm question t).map Response.method =
      some "template" ∧
    (query catalog sims store llm question t).map Response.answer =
      some ("No results found or error: " ++ resultsPyRepr (r0 :: rest)) ∧
    format_results (r0 :: rest) =
      "Error executing query: " ++ rowGetD r0 "error" "Unknown error" := by
  have hq := query_eq catalog sims store llm question t key score tmpl hfind
  rw [if_pos hth] at hq
  have hany' : (execute_cypher store tmpl.cypher).any
      (fun r => rowHasKey r "error") = true := by rw [hrows]; exact hany
  have hans := templateResponse_answer_of_error_row question key score tmpl
    store hany'
  rw [hrows] at hans
  rw [hq]
  exact ⟨rfl, by rw [Option.map_some', hans],
    format_results_error r0 rest hany⟩

/-- Witness for C9: a row carrying both genuine data and an `"error"`
column. -/
theorem C9_witness :
    (query demoCatalog demoSims (storeOk [mixedErrorRow]) none
        "who are the stakeholders" (mkRat 1 2)).map Response.method =
      some "template" ∧
    (query demoCatalog demoSims (storeOk [mixedErrorRow]) none
        "who are the stakeholders" (mkRat 1 2)).map Response.answer =
      some ("No results found or error: " ++ resultsPyRepr [mixedErrorRow]) ∧
    format_results [mixedErrorRow] =
      "Error executing query: " ++ rowGetD mixedErrorRow "error"
        "Unknown error" :=
  C9_error_by_column_name demoCatalog demoSims (storeOk [mixedErrorRow])
    none "who are the stakeholders" (mkRat 1 2) "list all stakeholders"
    (mkRat 4 5) demoTemplate0 mixedErrorRow [] (by decide) (by decide) rfl
    (by decide)

end HybridRag
